import Mathlib

/-!
Verification of the rocket-sled physics engine (`src/js/physics.js`, reproduced
in `src/README.md`).  The engine is a single mutable record updated by free
functions; we embed it as a state record over exact rationals (all operations
of the source are field operations, comparisons, `Math.sign`, `Math.abs`,
`Math.min`/`Math.max`), with each source function a state transformer.
Reachable states are those produced from the module-load state by any sequence
of setter calls, `resetPhysics()` calls and `updatePhysics(dt)` calls.
-/

namespace RocketSled

/-- JS `Math.sign`: `-1` for negatives, `1` for positives, `0` for zero. -/
def Math.sign (x : ℚ) : ℚ := if x < 0 then -1 else if 0 < x then 1 else 0

/-- JS `Math.abs`. -/
def Math.abs (x : ℚ) : ℚ := if x < 0 then -x else x

/-- `const SLED_MASS = 500; // kg` -/
def SLED_MASS : ℚ := 500

/-- `const APPLIED_FORCE = 2000; // N (thrust from rockets)` -/
def APPLIED_FORCE : ℚ := 2000

/-- `const FRICTION_COEFFICIENT = 0.15;` -/
def FRICTION_COEFFICIENT : ℚ := 3/20

/-- `const AIR_DRAG_COEFFICIENT = 0.5;` -/
def AIR_DRAG_COEFFICIENT : ℚ := 1/2

/-- `const GRAVITY = 9.8; // m/s²` -/
def GRAVITY : ℚ := 49/5

/-- `const MAX_VELOCITY = 50; // m/s (cap for simulation stability)` -/
def MAX_VELOCITY : ℚ := 50

/-- The fields of the `physicsState` record of `physics.js`. -/
structure PhysicsState where
  position : ℚ
  velocity : ℚ
  acceleration : ℚ
  mass : ℚ
  appliedForce : ℚ
  frictionForce : ℚ
  airDragForce : ℚ
  normalForce : ℚ
  gravityForce : ℚ
  netForce : ℚ
  frictionEnabled : Bool
  airDragEnabled : Bool
  thrustDirection : ℚ

/-- The initializer of the `physicsState` literal in `physics.js`
(before the module-load call to `resetPhysics()`). -/
def physicsState : PhysicsState :=
  { position := 0
    velocity := 0
    acceleration := 0
    mass := SLED_MASS
    appliedForce := 0
    frictionForce := 0
    airDragForce := 0
    normalForce := 0
    gravityForce := 0
    netForce := 0
    frictionEnabled := false
    airDragEnabled := false
    thrustDirection := 0 }

/-- `resetPhysics()`. -/
def resetPhysics (s : PhysicsState) : PhysicsState :=
  { s with
    position := 0
    velocity := 0
    acceleration := 0
    appliedForce := 0
    frictionForce := 0
    airDragForce := 0
    netForce := 0
    thrustDirection := 0
    gravityForce := s.mass * GRAVITY
    normalForce := s.mass * GRAVITY }

/-- `setThrustDirection(direction)`. -/
def setThrustDirection (direction : ℚ) (s : PhysicsState) : PhysicsState :=
  { s with thrustDirection := Math.sign direction }

/-- `setFrictionEnabled(enabled)`. -/
def setFrictionEnabled (enabled : Bool) (s : PhysicsState) : PhysicsState :=
  { s with frictionEnabled := enabled }

/-- `setAirDragEnabled(enabled)`. -/
def setAirDragEnabled (enabled : Bool) (s : PhysicsState) : PhysicsState :=
  { s with airDragEnabled := enabled }

/-- `updatePhysics(dt)`: a line-by-line translation of the frame step. -/
def updatePhysics (dt : ℚ) (s : PhysicsState) : PhysicsState :=
  let gravityForce := s.mass * GRAVITY
  let normalForce := gravityForce
  let appliedForce := s.thrustDirection * APPLIED_FORCE
  let frictionForce :=
    if s.frictionEnabled ∧ Math.abs s.velocity > 1/100 then
      (-Math.sign s.velocity) * (FRICTION_COEFFICIENT * normalForce)
    else 0
  let frictionForce :=
    if s.frictionEnabled ∧ Math.abs s.velocity < 1/100 ∧
        Math.abs appliedForce < FRICTION_COEFFICIENT * normalForce * (11/10) then
      -appliedForce
    else frictionForce
  let airDragForce :=
    if s.airDragEnabled ∧ Math.abs s.velocity > 1/100 then
      (-Math.sign s.velocity) * (AIR_DRAG_COEFFICIENT * s.velocity * s.velocity)
    else 0
  let netForce := appliedForce + frictionForce + airDragForce
  let acceleration := netForce / s.mass
  let velocity := s.velocity + acceleration * dt
  let velocity := max (-MAX_VELOCITY) (min MAX_VELOCITY velocity)
  let velocity :=
    if Math.abs velocity < 1/10 ∧ s.thrustDirection = 0 then
      if ¬s.frictionEnabled ∧ ¬s.airDragEnabled then velocity
      else if Math.abs velocity < 1/20 then 0 else velocity
    else velocity
  let position := s.position + velocity * dt
  { s with
    gravityForce := gravityForce
    normalForce := normalForce
    appliedForce := appliedForce
    frictionForce := frictionForce
    airDragForce := airDragForce
    netForce := netForce
    acceleration := acceleration
    velocity := velocity
    position := position }

/-- A sequence of frame steps with the given time deltas. -/
def advanceSeq (dts : List ℚ) (s : PhysicsState) : PhysicsState :=
  dts.foldl (fun t dt => updatePhysics dt t) s

/-- The states reachable from the module-load state (the literal record
followed by the load-time `resetPhysics()` call) by any interleaving of the
exported mutators. -/
inductive Reachable : PhysicsState → Prop where
  | init : Reachable (resetPhysics physicsState)
  | reset {s : PhysicsState} : Reachable s → Reachable (resetPhysics s)
  | thrust {s : PhysicsState} (d : ℚ) : Reachable s → Reachable (setThrustDirection d s)
  | friction {s : PhysicsState} (b : Bool) : Reachable s → Reachable (setFrictionEnabled b s)
  | drag {s : PhysicsState} (b : Bool) : Reachable s → Reachable (setAirDragEnabled b s)
  | advance {s : PhysicsState} (dt : ℚ) : Reachable s → Reachable (updatePhysics dt s)

/-- The scenario state of the worked example: reset, command rightward
thrust, both resistances left disabled, then `n` frame steps at `dt = 0.1`. -/
def exampleStep : Nat → PhysicsState
  | 0 => setThrustDirection 1 (resetPhysics physicsState)
  | n+1 => updatePhysics (1/10) (exampleStep n)

/-- A coasting scenario state: one thrusting step from rest (leaving
`velocity = 0.4`), then thrust commanded off; both resistances disabled. -/
def coastState : PhysicsState :=
  setThrustDirection 0 (updatePhysics (1/10) (setThrustDirection 1 (resetPhysics physicsState)))

/-- A static-lock scenario state: friction enabled right after reset, at rest,
thrust off. -/
def staticLockState : PhysicsState :=
  setFrictionEnabled true (resetPhysics physicsState)

/-- A kinetic-friction scenario state: one thrusting step from rest (leaving
`velocity = 0.4`), then friction enabled. -/
def kineticFrictionState : PhysicsState :=
  setFrictionEnabled true (updatePhysics (1/10) (setThrustDirection 1 (resetPhysics physicsState)))

/-- An air-drag scenario state: one thrusting step from rest (leaving
`velocity = 0.4`), then air drag enabled. -/
def dragOnState : PhysicsState :=
  setAirDragEnabled true (updatePhysics (1/10) (setThrustDirection 1 (resetPhysics physicsState)))

/-- A state with a stale friction force: friction was on for two thrusting
steps (the second computes kinetic friction), then switched off. -/
def staleFrictionState : PhysicsState :=
  setFrictionEnabled false
    (updatePhysics (1/10)
      (updatePhysics (1/10)
        (setThrustDirection 1 (setFrictionEnabled true (resetPhysics physicsState)))))

/-- A state with a stale applied force: thrust commanded after the reset,
with no frame step run yet. -/
def staleAppliedState : PhysicsState :=
  setThrustDirection 1 (resetPhysics physicsState)

/-- A state inside the drag dead zone: one tiny thrusting step from rest
leaves `velocity = 0.004`, with air drag enabled. -/
def dragDeadZoneState : PhysicsState :=
  updatePhysics (1/1000)
    (setThrustDirection 1 (setAirDragEnabled true (resetPhysics physicsState)))

lemma mabs_le_iff (x y : ℚ) : Math.abs x ≤ y ↔ -y ≤ x ∧ x ≤ y := by
  unfold Math.abs
  split_ifs with h
  · constructor
    · intro h2; exact ⟨by linarith, by linarith⟩
    · intro h2; linarith [h2.1]
  · constructor
    · intro h2; exact ⟨by linarith, h2⟩
    · intro h2; exact h2.2

lemma clamp_abs_le (x : ℚ) :
    Math.abs (max (-MAX_VELOCITY) (min MAX_VELOCITY x)) ≤ MAX_VELOCITY := by
  rw [mabs_le_iff]
  refine ⟨le_max_left _ _, max_le (by norm_num [MAX_VELOCITY]) (min_le_left _ _)⟩

lemma snap_abs_le (c1 c2 c3 : Prop) [Decidable c1] [Decidable c2] [Decidable c3]
    (v : ℚ) (h : Math.abs v ≤ MAX_VELOCITY) :
    Math.abs (if c1 then if c2 then v else if c3 then 0 else v else v) ≤ MAX_VELOCITY := by
  split_ifs <;> first | exact h | norm_num [Math.abs, MAX_VELOCITY]

lemma updatePhysics_velocity_abs_le (dt : ℚ) (s : PhysicsState) :
    Math.abs (updatePhysics dt s).velocity ≤ MAX_VELOCITY := by
  simp only [updatePhysics]
  exact snap_abs_le _ _ _ _ (clamp_abs_le _)

lemma reachable_mass {s : PhysicsState} (h : Reachable s) : s.mass = SLED_MASS := by
  induction h with
  | init => rfl
  | reset _ ih => exact ih
  | thrust _ _ ih => exact ih
  | friction _ _ ih => exact ih
  | drag _ _ ih => exact ih
  | advance _ _ ih => exact ih

lemma reachable_thrustDirection {s : PhysicsState} (h : Reachable s) :
    s.thrustDirection = -1 ∨ s.thrustDirection = 0 ∨ s.thrustDirection = 1 := by
  induction h with
  | init => exact Or.inr (Or.inl rfl)
  | reset _ _ => exact Or.inr (Or.inl rfl)
  | thrust d _ _ =>
      show Math.sign d = -1 ∨ Math.sign d = 0 ∨ Math.sign d = 1
      unfold Math.sign
      split_ifs
      · exact Or.inl rfl
      · exact Or.inr (Or.inr rfl)
      · exact Or.inr (Or.inl rfl)
  | friction _ _ ih => exact ih
  | drag _ _ ih => exact ih
  | advance _ _ ih => exact ih

lemma reachable_velocity_abs_le {s : PhysicsState} (h : Reachable s) :
    Math.abs s.velocity ≤ MAX_VELOCITY := by
  induction h with
  | init => norm_num [Math.abs, MAX_VELOCITY, resetPhysics, physicsState]
  | reset _ _ => norm_num [Math.abs, MAX_VELOCITY, resetPhysics]
  | thrust _ _ ih => exact ih
  | friction _ _ ih => exact ih
  | drag _ _ ih => exact ih
  | advance dt _ _ => exact updatePhysics_velocity_abs_le dt _

/-- C1: every reachable state of the engine (module-load state, and any
sequence of setter, reset, and frame-step calls) has `|velocity| ≤ 50`. -/
theorem reachable_velocity_bounded (s : PhysicsState) (h : Reachable s) :
    Math.abs s.velocity ≤ MAX_VELOCITY :=
  reachable_velocity_abs_le h

/-- Witness for C1 at the module-load state. -/
theorem reachable_velocity_bounded_witness :
    Reachable (resetPhysics physicsState) ∧
      Math.abs (resetPhysics physicsState).velocity ≤ MAX_VELOCITY :=
  ⟨Reachable.init, reachable_velocity_bounded _ Reachable.init⟩

/-- C9: `resetPhysics` zeroes position, velocity, acceleration, thrust
direction and all horizontal forces, recomputes gravity and normal force as
`mass * g`, leaves both enable flags unchanged, and is idempotent. -/
theorem resetPhysics_spec_and_idempotent (s : PhysicsState) :
    (resetPhysics s).position = 0 ∧
    (resetPhysics s).velocity = 0 ∧
    (resetPhysics s).acceleration = 0 ∧
    (resetPhysics s).thrustDirection = 0 ∧
    (resetPhysics s).appliedForce = 0 ∧
    (resetPhysics s).frictionForce = 0 ∧
    (resetPhysics s).airDragForce = 0 ∧
    (resetPhysics s).netForce = 0 ∧
    (resetPhysics s).gravityForce = s.mass * GRAVITY ∧
    (resetPhysics s).normalForce = s.mass * GRAVITY ∧
    (resetPhysics s).frictionEnabled = s.frictionEnabled ∧
    (resetPhysics s).airDragEnabled = s.airDragEnabled ∧
    resetPhysics (resetPhysics s) = resetPhysics s :=
  ⟨rfl, rfl, rfl, rfl, rfl, rfl, rfl, rfl, rfl, rfl, rfl, rfl, rfl⟩

/-- C10: a frame step never writes the control inputs or the mass: `mass`,
`frictionEnabled`, `airDragEnabled` and `thrustDirection` are unchanged by
`updatePhysics(dt)` for every state and every `dt`. -/
theorem updatePhysics_preserves_controls (dt : ℚ) (s : PhysicsState) :
    (updatePhysics dt s).mass = s.mass ∧
    (updatePhysics dt s).frictionEnabled = s.frictionEnabled ∧
    (updatePhysics dt s).airDragEnabled = s.airDragEnabled ∧
    (updatePhysics dt s).thrustDirection = s.thrustDirection :=
  ⟨rfl, rfl, rfl, rfl⟩

lemma coast_step (dt : ℚ) (s : PhysicsState) (htd : s.thrustDirection = 0)
    (hf : s.frictionEnabled = false) (hd : s.airDragEnabled = false)
    (hv : Math.abs s.velocity ≤ MAX_VELOCITY) :
    (updatePhysics dt s).velocity = s.velocity ∧
      (updatePhysics dt s).position = s.position + s.velocity * dt := by
  obtain ⟨hv1, hv2⟩ := (mabs_le_iff _ _).1 hv
  simp only [updatePhysics, htd, hf, hd]
  norm_num [min_eq_right hv2, max_eq_right hv1]

/-- C7: with thrust off and both resistances disabled, any sequence of frame
steps leaves the velocity exactly unchanged (Newton's first law); starting at
rest, the position is unchanged as well. -/
theorem coasting_preserves_velocity (s : PhysicsState) (h : Reachable s)
    (htd : s.thrustDirection = 0) (hf : s.frictionEnabled = false)
    (hd : s.airDragEnabled = false) (dts : List ℚ) :
    (advanceSeq dts s).velocity = s.velocity ∧
      (s.velocity = 0 → (advanceSeq dts s).position = s.position) := by
  induction dts generalizing s with
  | nil => exact ⟨rfl, fun _ => rfl⟩
  | cons dt rest ih =>
      obtain ⟨hsv, hsp⟩ := coast_step dt s htd hf hd (reachable_velocity_abs_le h)
      have hstep : advanceSeq (dt :: rest) s = advanceSeq rest (updatePhysics dt s) := rfl
      obtain ⟨ihv, ihp⟩ := ih (updatePhysics dt s) (Reachable.advance dt h) htd hf hd
      rw [hstep]
      refine ⟨ihv.trans hsv, fun h0 => ?_⟩
      have hsv0 : (updatePhysics dt s).velocity = 0 := hsv.trans h0
      rw [ihp hsv0, hsp, h0, zero_mul, add_zero]

/-- Witness for C7: a coasting state with nonzero velocity (thrust was turned
off after one thrusting step), advanced twice. -/
theorem coasting_preserves_velocity_witness :
    Reachable coastState ∧ coastState.thrustDirection = 0 ∧
      coastState.frictionEnabled = false ∧ coastState.airDragEnabled = false ∧
      (advanceSeq [1/10, 1/10] coastState).velocity = coastState.velocity :=
  ⟨Reachable.thrust 0 (Reachable.advance (1/10) (Reachable.thrust 1 Reachable.init)),
    by norm_num [coastState, setThrustDirection, Math.sign], rfl, rfl,
    (coasting_preserves_velocity coastState
      (Reachable.thrust 0 (Reachable.advance (1/10) (Reachable.thrust 1 Reachable.init)))
      (by norm_num [coastState, setThrustDirection, Math.sign]) rfl rfl [1/10, 1/10]).1⟩

/-- C2: if friction is enabled, `|velocity| ≤ 0.01`, and the commanded thrust
(the applied force the step recomputes, `thrustDirection * 2000`) is below the
static threshold `μ * normalForce * 1.1`, then the step sets `frictionForce`
to exactly `-appliedForce` (so applied plus friction net to zero), and a sled
at rest stays at rest. -/
theorem static_friction_lock (dt : ℚ) (s : PhysicsState) (h : Reachable s)
    (hf : s.frictionEnabled = true) (hv : Math.abs s.velocity ≤ 1/100)
    (hF : Math.abs (s.thrustDirection * APPLIED_FORCE) <
      FRICTION_COEFFICIENT * (s.mass * GRAVITY) * (11/10)) :
    (updatePhysics dt s).frictionForce = -(updatePhysics dt s).appliedForce ∧
      (updatePhysics dt s).appliedForce + (updatePhysics dt s).frictionForce = 0 ∧
      (s.velocity = 0 → (updatePhysics dt s).velocity = 0) := by
  have hm := reachable_mass h
  have htd0 : s.thrustDirection = 0 := by
    rcases reachable_thrustDirection h with h1 | h1 | h1
    · rw [h1, hm] at hF
      norm_num [Math.abs, APPLIED_FORCE, FRICTION_COEFFICIENT, GRAVITY, SLED_MASS] at hF
    · exact h1
    · rw [h1, hm] at hF
      norm_num [Math.abs, APPLIED_FORCE, FRICTION_COEFFICIENT, GRAVITY, SLED_MASS] at hF
  have happ : (updatePhysics dt s).appliedForce = 0 := by
    show s.thrustDirection * APPLIED_FORCE = 0
    rw [htd0, zero_mul]
  have hfr : (updatePhysics dt s).frictionForce = 0 := by
    rcases lt_or_eq_of_le hv with hlt | heq
    · simp only [updatePhysics, htd0, hf, hm]
      rw [if_pos ⟨trivial, hlt, by
        norm_num [Math.abs, APPLIED_FORCE, FRICTION_COEFFICIENT, GRAVITY, SLED_MASS]⟩]
      norm_num
    · simp only [updatePhysics, htd0, hf, hm]
      rw [if_neg (fun hc => absurd hc.2.1 (by rw [heq]; norm_num)),
        if_neg (fun hc => absurd hc.2 (by rw [heq]; norm_num))]
  refine ⟨by rw [happ, hfr]; norm_num, by rw [happ, hfr]; norm_num, fun h0 => ?_⟩
  simp only [updatePhysics, htd0, hf, hm, h0]
  norm_num [Math.abs, min_def, max_def, MAX_VELOCITY, APPLIED_FORCE,
    FRICTION_COEFFICIENT, GRAVITY, SLED_MASS]

/-- Witness for C2: friction enabled right after reset, sled at rest, thrust
off; one step at `dt = 0.1`. -/
theorem static_friction_lock_witness :
    Reachable staticLockState ∧ staticLockState.frictionEnabled = true ∧
      Math.abs staticLockState.velocity ≤ 1/100 ∧
      Math.abs (staticLockState.thrustDirection * APPLIED_FORCE) <
        FRICTION_COEFFICIENT * (staticLockState.mass * GRAVITY) * (11/10) ∧
      (updatePhysics (1/10) staticLockState).frictionForce =
        -(updatePhysics (1/10) staticLockState).appliedForce ∧
      (staticLockState.velocity = 0 → (updatePhysics (1/10) staticLockState).velocity = 0) := by
  have hr : Reachable staticLockState := Reachable.friction true Reachable.init
  have h1 : Math.abs staticLockState.velocity ≤ 1/100 := by
    norm_num [staticLockState, setFrictionEnabled, resetPhysics, physicsState, Math.abs]
  have h2 : Math.abs (staticLockState.thrustDirection * APPLIED_FORCE) <
      FRICTION_COEFFICIENT * (staticLockState.mass * GRAVITY) * (11/10) := by
    norm_num [staticLockState, setFrictionEnabled, resetPhysics, physicsState, Math.abs,
      APPLIED_FORCE, FRICTION_COEFFICIENT, GRAVITY, SLED_MASS]
  obtain ⟨c1, _, c3⟩ := static_friction_lock (1/10) staticLockState hr rfl h1 h2
  exact ⟨hr, rfl, h1, h2, c1, c3⟩

/-- C5: if friction is enabled and `|velocity| > 0.01` at the start of a step,
that step sets `frictionForce = -sign(velocity) * (μ * normalForce)` with
`normalForce = mass * g`, a force of strictly opposite sign to the velocity. -/
theorem kinetic_friction_opposes_motion (dt : ℚ) (s : PhysicsState) (h : Reachable s)
    (hf : s.frictionEnabled = true) (hv : Math.abs s.velocity > 1/100) :
    (updatePhysics dt s).frictionForce =
        (-Math.sign s.velocity) * (FRICTION_COEFFICIENT * (s.mass * GRAVITY)) ∧
      (0 < s.velocity → (updatePhysics dt s).frictionForce < 0) ∧
      (s.velocity < 0 → 0 < (updatePhysics dt s).frictionForce) := by
  have hm := reachable_mass h
  have h1 : (updatePhysics dt s).frictionForce =
      (-Math.sign s.velocity) * (FRICTION_COEFFICIENT * (s.mass * GRAVITY)) := by
    simp only [updatePhysics, hf]
    rw [if_neg (fun hc => absurd hc.2.1 (not_lt.mpr hv.le)), if_pos ⟨trivial, hv⟩]
  refine ⟨h1, ?_, ?_⟩
  · intro hpos
    have hs : Math.sign s.velocity = 1 := by
      unfold Math.sign
      rw [if_neg (by linarith), if_pos hpos]
    rw [h1, hs, hm]
    norm_num [FRICTION_COEFFICIENT, GRAVITY, SLED_MASS]
  · intro hneg
    have hs : Math.sign s.velocity = -1 := by
      unfold Math.sign
      rw [if_pos hneg]
    rw [h1, hs, hm]
    norm_num [FRICTION_COEFFICIENT, GRAVITY, SLED_MASS]

/-- Witness for C5: friction enabled on a sled moving right at `0.4 m/s`. -/
theorem kinetic_friction_opposes_motion_witness :
    Reachable kineticFrictionState ∧ kineticFrictionState.frictionEnabled = true ∧
      Math.abs kineticFrictionState.velocity > 1/100 ∧
      (updatePhysics (1/10) kineticFrictionState).frictionForce =
        (-Math.sign kineticFrictionState.velocity) *
          (FRICTION_COEFFICIENT * (kineticFrictionState.mass * GRAVITY)) ∧
      (0 < kineticFrictionState.velocity →
        (updatePhysics (1/10) kineticFrictionState).frictionForce < 0) := by
  have hr : Reachable kineticFrictionState :=
    Reachable.friction true (Reachable.advance (1/10) (Reachable.thrust 1 Reachable.init))
  have h1 : Math.abs kineticFrictionState.velocity > 1/100 := by
    norm_num [kineticFrictionState, setFrictionEnabled, setThrustDirection, updatePhysics,
      resetPhysics, physicsState, Math.abs, Math.sign, min_def, max_def, MAX_VELOCITY,
      APPLIED_FORCE, FRICTION_COEFFICIENT, GRAVITY, SLED_MASS, AIR_DRAG_COEFFICIENT]
  obtain ⟨c1, c2, _⟩ := kinetic_friction_opposes_motion (1/10) kineticFrictionState hr rfl h1
  exact ⟨hr, rfl, h1, c1, c2⟩

/-- C3 counterexample: the claim also covers states reached by calling
`setFrictionEnabled(false)` after an advance that computed a nonzero friction
force; there the force is stale and nonzero although the flag is off. -/
theorem stale_friction_force_cex :
    Reachable staleFrictionState ∧ staleFrictionState.frictionEnabled = false ∧
      staleFrictionState.frictionForce ≠ 0 := by
  refine ⟨Reachable.friction false (Reachable.advance (1/10) (Reachable.advance (1/10)
    (Reachable.thrust 1 (Reachable.friction true Reachable.init)))), rfl, ?_⟩
  norm_num [staleFrictionState, setFrictionEnabled, setThrustDirection, updatePhysics,
    resetPhysics, physicsState, Math.abs, Math.sign, min_def, max_def, MAX_VELOCITY,
    APPLIED_FORCE, FRICTION_COEFFICIENT, GRAVITY, SLED_MASS, AIR_DRAG_COEFFICIENT]

/-- C3 amended: after every frame step, `frictionForce` is zero unless
`frictionEnabled` and `airDragForce` is zero unless `airDragEnabled`, and a
reset zeroes both; but a setter call between steps does not itself zero a
previously computed force, so disabling a flag after a step can leave a stale
nonzero force until the next step. -/
theorem resistance_forces_zero_after_step (dt : ℚ) (s : PhysicsState) :
    ((updatePhysics dt s).frictionEnabled = false → (updatePhysics dt s).frictionForce = 0) ∧
      ((updatePhysics dt s).airDragEnabled = false → (updatePhysics dt s).airDragForce = 0) ∧
      (resetPhysics s).frictionForce = 0 ∧ (resetPhysics s).airDragForce = 0 := by
  refine ⟨fun h => ?_, fun h => ?_, rfl, rfl⟩
  · have hf : s.frictionEnabled = false := h
    simp only [updatePhysics, hf]
    norm_num
  · have hd : s.airDragEnabled = false := h
    simp only [updatePhysics, hd]
    norm_num

/-- Witness for the amended C3 at the module-load state. -/
theorem resistance_forces_zero_after_step_witness :
    (updatePhysics (1/10) (resetPhysics physicsState)).frictionEnabled = false ∧
      (updatePhysics (1/10) (resetPhysics physicsState)).airDragEnabled = false ∧
      (updatePhysics (1/10) (resetPhysics physicsState)).frictionForce = 0 ∧
      (updatePhysics (1/10) (resetPhysics physicsState)).airDragForce = 0 :=
  ⟨rfl, rfl, (resistance_forces_zero_after_step (1/10) (resetPhysics physicsState)).1 rfl,
    (resistance_forces_zero_after_step (1/10) (resetPhysics physicsState)).2.1 rfl⟩

/-- C4 counterexample: calling `setThrustDirection` between two advances
changes `thrustDirection` but leaves `appliedForce` stale, so the relation
`appliedForce = thrustDirection * 2000` fails in that reachable state. -/
theorem stale_applied_force_cex :
    Reachable staleAppliedState ∧
      staleAppliedState.appliedForce ≠ staleAppliedState.thrustDirection * APPLIED_FORCE := by
  refine ⟨Reachable.thrust 1 Reachable.init, ?_⟩
  norm_num [staleAppliedState, setThrustDirection, resetPhysics, physicsState,
    Math.sign, APPLIED_FORCE]

/-- C4 amended: `thrustDirection ∈ {-1, 0, 1}` in every reachable state, and
`appliedForce = thrustDirection * 2000` holds in every state produced by a
frame step or by a reset; between a `setThrustDirection` call and the next
step, `appliedForce` is stale. -/
theorem thrust_range_and_applied_force (s : PhysicsState) (h : Reachable s) :
    (s.thrustDirection = -1 ∨ s.thrustDirection = 0 ∨ s.thrustDirection = 1) ∧
      (∀ dt : ℚ, (updatePhysics dt s).appliedForce =
        (updatePhysics dt s).thrustDirection * APPLIED_FORCE) ∧
      (resetPhysics s).appliedForce = (resetPhysics s).thrustDirection * APPLIED_FORCE :=
  ⟨reachable_thrustDirection h, fun _ => rfl, (zero_mul _).symm⟩

/-- Witness for the amended C4 at the module-load state. -/
theorem thrust_range_and_applied_force_witness :
    Reachable (resetPhysics physicsState) ∧
      (((resetPhysics physicsState).thrustDirection = -1 ∨
          (resetPhysics physicsState).thrustDirection = 0 ∨
          (resetPhysics physicsState).thrustDirection = 1) ∧
        (∀ dt : ℚ, (updatePhysics dt (resetPhysics physicsState)).appliedForce =
          (updatePhysics dt (resetPhysics physicsState)).thrustDirection * APPLIED_FORCE) ∧
        (resetPhysics (resetPhysics physicsState)).appliedForce =
          (resetPhysics (resetPhysics physicsState)).thrustDirection * APPLIED_FORCE) :=
  ⟨Reachable.init, thrust_range_and_applied_force _ Reachable.init⟩

/-- C6 counterexample: with air drag enabled and `0 < |velocity| ≤ 0.01`
(velocity `0.004` here), the step sets `airDragForce = 0`, not a force of
magnitude `k_air * v²`. -/
theorem air_drag_dead_zone_cex :
    Reachable dragDeadZoneState ∧ dragDeadZoneState.airDragEnabled = true ∧
      0 < Math.abs dragDeadZoneState.velocity ∧
      Math.abs dragDeadZoneState.velocity ≤ 1/100 ∧
      (updatePhysics (1/10) dragDeadZoneState).airDragForce = 0 ∧
      Math.abs (updatePhysics (1/10) dragDeadZoneState).airDragForce ≠
        AIR_DRAG_COEFFICIENT * dragDeadZoneState.velocity * dragDeadZoneState.velocity := by
  refine ⟨Reachable.advance (1/1000) (Reachable.thrust 1 (Reachable.drag true Reachable.init)),
    rfl, ?_, ?_, ?_, ?_⟩ <;>
    norm_num [dragDeadZoneState, setAirDragEnabled, setThrustDirection, updatePhysics,
      resetPhysics, physicsState, Math.abs, Math.sign, min_def, max_def, MAX_VELOCITY,
      APPLIED_FORCE, FRICTION_COEFFICIENT, GRAVITY, SLED_MASS, AIR_DRAG_COEFFICIENT]

/-- C6 amended: with air drag enabled and `|velocity| > 0.01` at the start of
a step, the step sets a drag force of magnitude exactly `k_air * v²` with sign
strictly opposite to `v`; with `|velocity| ≤ 0.01` (the dead zone, including
small nonzero velocities) it sets `airDragForce = 0`. -/
theorem air_drag_quadratic_law (dt : ℚ) (s : PhysicsState) (hd : s.airDragEnabled = true) :
    (Math.abs s.velocity > 1/100 →
      Math.abs (updatePhysics dt s).airDragForce =
          AIR_DRAG_COEFFICIENT * s.velocity * s.velocity ∧
        (0 < s.velocity → (updatePhysics dt s).airDragForce < 0) ∧
        (s.velocity < 0 → 0 < (updatePhysics dt s).airDragForce)) ∧
    (Math.abs s.velocity ≤ 1/100 → (updatePhysics dt s).airDragForce = 0) := by
  constructor
  · intro hv
    have hD : (updatePhysics dt s).airDragForce =
        (-Math.sign s.velocity) * (AIR_DRAG_COEFFICIENT * s.velocity * s.velocity) := by
      simp only [updatePhysics, hd]
      rw [if_pos ⟨trivial, hv⟩]
    have hvne : s.velocity ≠ 0 := by
      intro h0
      rw [h0] at hv
      norm_num [Math.abs] at hv
    rcases lt_or_gt_of_ne hvne with hneg | hpos
    · have hs : Math.sign s.velocity = -1 := by
        unfold Math.sign
        rw [if_pos hneg]
      have h1 : AIR_DRAG_COEFFICIENT * s.velocity < 0 := by
        simp only [AIR_DRAG_COEFFICIENT]
        linarith
      have hq : 0 < AIR_DRAG_COEFFICIENT * s.velocity * s.velocity :=
        mul_pos_of_neg_of_neg h1 hneg
      refine ⟨?_, fun hp => absurd hp (by linarith), fun _ => ?_⟩
      · rw [hD, hs, neg_neg, one_mul]
        unfold Math.abs
        rw [if_neg (not_lt.mpr hq.le)]
      · rw [hD, hs, neg_neg, one_mul]
        exact hq
    · have hs : Math.sign s.velocity = 1 := by
        unfold Math.sign
        rw [if_neg (by linarith), if_pos hpos]
      have h1 : 0 < AIR_DRAG_COEFFICIENT * s.velocity := by
        simp only [AIR_DRAG_COEFFICIENT]
        linarith
      have hq : 0 < AIR_DRAG_COEFFICIENT * s.velocity * s.velocity := mul_pos h1 hpos
      refine ⟨?_, fun _ => ?_, fun hn => absurd hn (by linarith)⟩
      · rw [hD, hs, neg_one_mul]
        unfold Math.abs
        rw [if_pos (by linarith), neg_neg]
      · rw [hD, hs, neg_one_mul]
        linarith
  · intro hle
    simp only [updatePhysics, hd]
    rw [if_neg (fun hc => absurd hc.2 (not_lt.mpr hle))]

/-- Witness for the amended C6: air drag enabled on a sled moving right at
`0.4 m/s`; the next step computes `|drag| = 0.5 * 0.4² = 0.08 N`. -/
theorem air_drag_quadratic_law_witness :
    dragOnState.airDragEnabled = true ∧ Math.abs dragOnState.velocity > 1/100 ∧
      Math.abs (updatePhysics (1/10) dragOnState).airDragForce =
        AIR_DRAG_COEFFICIENT * dragOnState.velocity * dragOnState.velocity := by
  have h1 : Math.abs dragOnState.velocity > 1/100 := by
    norm_num [dragOnState, setAirDragEnabled, setThrustDirection, updatePhysics,
      resetPhysics, physicsState, Math.abs, Math.sign, min_def, max_def, MAX_VELOCITY,
      APPLIED_FORCE, FRICTION_COEFFICIENT, GRAVITY, SLED_MASS, AIR_DRAG_COEFFICIENT]
  exact ⟨rfl, h1, ((air_drag_quadratic_law (1/10) dragOnState rfl).1 h1).1⟩

/-- C8: from the reset state with rightward thrust commanded (mass 500 kg,
thrust 2000 N, friction and drag off), ten steps at `dt = 0.1 s` give
`acceleration = 4 m/s²` on every step, `velocity = 4 m/s` after the tenth
step, and `position = 2.2 m`, matching the semi-implicit Euler recurrence. -/
theorem example_run_ten_steps :
    (exampleStep 10).velocity = 4 ∧ (exampleStep 10).position = 11/5 ∧
      ∀ i : Fin 10, (exampleStep (i.1 + 1)).acceleration = 4 := by
  have g0 : exampleStep 0 = ⟨0, 0, 0, 500, 0, 0, 0, 4900, 4900, 0, false, false, 1⟩ := by
    show setThrustDirection 1 (resetPhysics physicsState) = _
    norm_num [setThrustDirection, resetPhysics, physicsState, Math.sign, SLED_MASS, GRAVITY]
  have g1 : exampleStep 1 = ⟨1/25, 2/5, 4, 500, 2000, 0, 0, 4900, 4900, 2000, false, false, 1⟩ := by
    show updatePhysics (1/10) (exampleStep 0) = _
    rw [g0]
    norm_num [updatePhysics, Math.abs, Math.sign, min_def, max_def, MAX_VELOCITY,
      APPLIED_FORCE, FRICTION_COEFFICIENT, GRAVITY, SLED_MASS, AIR_DRAG_COEFFICIENT]
  have g2 : exampleStep 2 = ⟨3/25, 4/5, 4, 500, 2000, 0, 0, 4900, 4900, 2000, false, false, 1⟩ := by
    show updatePhysics (1/10) (exampleStep 1) = _
    rw [g1]
    norm_num [updatePhysics, Math.abs, Math.sign, min_def, max_def, MAX_VELOCITY,
      APPLIED_FORCE, FRICTION_COEFFICIENT, GRAVITY, SLED_MASS, AIR_DRAG_COEFFICIENT]
  have g3 : exampleStep 3 = ⟨6/25, 6/5, 4, 500, 2000, 0, 0, 4900, 4900, 2000, false, false, 1⟩ := by
    show updatePhysics (1/10) (exampleStep 2) = _
    rw [g2]
    norm_num [updatePhysics, Math.abs, Math.sign, min_def, max_def, MAX_VELOCITY,
      APPLIED_FORCE, FRICTION_COEFFICIENT, GRAVITY, SLED_MASS, AIR_DRAG_COEFFICIENT]
  have g4 : exampleStep 4 = ⟨2/5, 8/5, 4, 500, 2000, 0, 0, 4900, 4900, 2000, false, false, 1⟩ := by
    show updatePhysics (1/10) (exampleStep 3) = _
    rw [g3]
    norm_num [updatePhysics, Math.abs, Math.sign, min_def, max_def, MAX_VELOCITY,
      APPLIED_FORCE, FRICTION_COEFFICIENT, GRAVITY, SLED_MASS, AIR_DRAG_COEFFICIENT]
  have g5 : exampleStep 5 = ⟨3/5, 2, 4, 500, 2000, 0, 0, 4900, 4900, 2000, false, false, 1⟩ := by
    show updatePhysics (1/10) (exampleStep 4) = _
    rw [g4]
    norm_num [updatePhysics, Math.abs, Math.sign, min_def, max_def, MAX_VELOCITY,
      APPLIED_FORCE, FRICTION_COEFFICIENT, GRAVITY, SLED_MASS, AIR_DRAG_COEFFICIENT]
  have g6 : exampleStep 6 = ⟨21/25, 12/5, 4, 500, 2000, 0, 0, 4900, 4900, 2000, false, false, 1⟩ := by
    show updatePhysics (1/10) (exampleStep 5) = _
    rw [g5]
    norm_num [updatePhysics, Math.abs, Math.sign, min_def, max_def, MAX_VELOCITY,
      APPLIED_FORCE, FRICTION_COEFFICIENT, GRAVITY, SLED_MASS, AIR_DRAG_COEFFICIENT]
  have g7 : exampleStep 7 = ⟨28/25, 14/5, 4, 500, 2000, 0, 0, 4900, 4900, 2000, false, false, 1⟩ := by
    show updatePhysics (1/10) (exampleStep 6) = _
    rw [g6]
    norm_num [updatePhysics, Math.abs, Math.sign, min_def, max_def, MAX_VELOCITY,
      APPLIED_FORCE, FRICTION_COEFFICIENT, GRAVITY, SLED_MASS, AIR_DRAG_COEFFICIENT]
  have g8 : exampleStep 8 = ⟨36/25, 16/5, 4, 500, 2000, 0, 0, 4900, 4900, 2000, false, false, 1⟩ := by
    show updatePhysics (1/10) (exampleStep 7) = _
    rw [g7]
    norm_num [updatePhysics, Math.abs, Math.sign, min_def, max_def, MAX_VELOCITY,
      APPLIED_FORCE, FRICTION_COEFFICIENT, GRAVITY, SLED_MASS, AIR_DRAG_COEFFICIENT]
  have g9 : exampleStep 9 = ⟨9/5, 18/5, 4, 500, 2000, 0, 0, 4900, 4900, 2000, false, false, 1⟩ := by
    show updatePhysics (1/10) (exampleStep 8) = _
    rw [g8]
    norm_num [updatePhysics, Math.abs, Math.sign, min_def, max_def, MAX_VELOCITY,
      APPLIED_FORCE, FRICTION_COEFFICIENT, GRAVITY, SLED_MASS, AIR_DRAG_COEFFICIENT]
  have g10 : exampleStep 10 = ⟨11/5, 4, 4, 500, 2000, 0, 0, 4900, 4900, 2000, false, false, 1⟩ := by
    show updatePhysics (1/10) (exampleStep 9) = _
    rw [g9]
    norm_num [updatePhysics, Math.abs, Math.sign, min_def, max_def, MAX_VELOCITY,
      APPLIED_FORCE, FRICTION_COEFFICIENT, GRAVITY, SLED_MASS, AIR_DRAG_COEFFICIENT]
  refine ⟨by rw [g10], by rw [g10], fun i => ?_⟩
  fin_cases i <;> norm_num [g1, g2, g3, g4, g5, g6, g7, g8, g9, g10]

end RocketSled
